import Mathlib

/-
  Verification development for the LoRaSimMac simulator (loraDir_mac.py).

  The Python source is shallowly embedded: pure functions become Lean
  functions over ℚ / ℤ / ℕ (Python floats are modelled by exact rationals,
  which preserves the formula structure the claims are about), the
  gateway arrival handler `checkcollision` becomes a pure state
  transformer, and the per-node MAC event loop becomes an explicit
  labelled step relation whose steps are the atomic code sections between
  two `yield env.timeout(...)` suspensions of the cooperative scheduler.
-/

set_option maxHeartbeats 1000000

/-! ## Constants of the source module -/

/-- Source: `dataPacketType=1`. -/
def dataPacketType : Nat := 1

/-- Source: `rtsPacketType=2`. -/
def rtsPacketType : Nat := 2

/-- Source: `schedule_tx=0`. -/
def schedule_tx : Nat := 0

/-- Source: `want_transmit=1`. -/
def want_transmit : Nat := 1

/-- Source: `start_CA=2`. -/
def start_CA : Nat := 2

/-- Source: `start_phase1_listen=3`. -/
def start_phase1_listen : Nat := 3

/-- Source: `start_phase2_backoff=4`. -/
def start_phase2_backoff : Nat := 4

/-- Source: `start_phase2_rts=5`. -/
def start_phase2_rts : Nat := 5

/-- Source: `start_phase2_listen=6`. -/
def start_phase2_listen : Nat := 6

/-- Source: `start_phase3_backoff=7`. -/
def start_phase3_backoff : Nat := 7

/-- Source: `start_phase3_transmit=8`. -/
def start_phase3_transmit : Nat := 8

/-- Source: `start_nav=9`. -/
def start_nav : Nat := 9

/-- Source: `maxBSReceives = 8` (maximum number of packets the BS can
receive at the same time). -/
def maxBSReceives : Nat := 8

/-- Source: `max_payload_size = 120`. -/
def max_payload_size : Nat := 120

/-! ## Airtime calculator (source function `airtime`, sub-GHz branch,
i.e. `lora24GHz = False`) -/

/-- Embedding of the source function `airtime(sf,cr,pl,bw)` for the
sub-GHz regime (`lora24GHz = False`), with Python float arithmetic
modelled by exact rationals.  Source lines 599-612:
`H = 0`; `DE = 1` when `bw == 125 and sf in [11, 12]`; `H = 1` when
`sf == 6`; `Tsym = 2.0**sf/bw`; `Tpream = (8 + 4.25)*Tsym`;
`payloadSymbNB = 8 + max(ceil((8.0*pl-4.0*sf+28+16-20*H)/(4.0*(sf-2*DE)))*(cr+4), 0)`;
result `Tpream + payloadSymbNB * Tsym`. -/
def airtime (sf cr pl : Nat) (bw : ℚ) : ℚ :=
  let DE : Nat := if bw = 125 ∧ (sf = 11 ∨ sf = 12) then 1 else 0
  let H : Nat := if sf = 6 then 1 else 0
  let Tsym : ℚ := (2 : ℚ) ^ sf / bw
  let Tpream : ℚ := (8 + 4.25) * Tsym
  let payloadSymbNB : ℚ :=
    8 + ((max (Int.ceil ((8 * (pl : ℚ) - 4 * (sf : ℚ) + 28 + 16 - 20 * (H : ℚ)) /
          (4 * ((sf : ℚ) - 2 * (DE : ℚ)))) * ((cr : ℤ) + 4)) 0 : ℤ) : ℚ)
  Tpream + payloadSymbNB * Tsym

/-- Sub-GHz airtime exactly as claim C5 words it: `Tsym = 2^SF/BW`,
`Tpream = (8 + 4.25)·Tsym`, `H = 1` exactly when `SF = 6`, `DE = 1`
exactly when `BW = 125` and `SF ∈ {11,12}`, and
`payloadSymbNB = 8 + max(0, ceil((8·pl − 4·SF + 28 + 16 − 20·H)/(4·(SF − 2·DE)))·(CR + 4))`;
total is `Tpream + payloadSymbNB·Tsym`. -/
def airtimeSpec (sf cr pl : Nat) (bw : ℚ) : ℚ :=
  let H : Nat := if sf = 6 then 1 else 0
  let DE : Nat := if bw = 125 ∧ (sf = 11 ∨ sf = 12) then 1 else 0
  let Tsym : ℚ := (2 : ℚ) ^ sf / bw
  let Tpream : ℚ := (8 + 4.25) * Tsym
  let payloadSymbNB : ℚ :=
    8 + ((max 0 (Int.ceil ((8 * (pl : ℚ) - 4 * (sf : ℚ) + 28 + 16 - 20 * (H : ℚ)) /
          (4 * ((sf : ℚ) - 2 * (DE : ℚ)))) * ((cr : ℤ) + 4)) : ℤ) : ℚ)
  Tpream + payloadSymbNB * Tsym

/-! ## Packets (source class `myPacket`) -/

/-- Embedding of the fields of the source class `myPacket` that the
claims read or write.  `collided` and `processed` are the 0/1 integer
flags of the source; `freq` is the integer carrier frequency in Hz. -/
structure myPacket where
  nodeid : Int
  sf : Nat
  cr : Nat
  bw : ℚ
  freq : Int
  rssi : ℚ
  ptype : Nat
  pl : Nat
  data_len : Nat
  rectime : ℚ
  addTime : ℚ
  collided : Nat
  processed : Nat
deriving DecidableEq, Repr

/-- Embedding of `myPacket.setPacketType` (source lines 883-891): set
`ptype`; for RTS set `pl = 5`, otherwise `pl = data_len`; in both cases
recompute `rectime = airtime(sf, cr, pl, bw)`. -/
def setPacketType (p : myPacket) (ptype : Nat) : myPacket :=
  if ptype = rtsPacketType then
    { p with ptype := ptype, pl := 5, rectime := airtime p.sf p.cr 5 p.bw }
  else
    { p with ptype := ptype, pl := p.data_len, rectime := airtime p.sf p.cr p.data_len p.bw }

/-! ## Collision evaluator (source functions `frequencyCollision`,
`sfCollision`, `powerCollision`, `timingCollision`) -/

/-- Embedding of the source function `frequencyCollision(p1,p2)`
(lines 509-522), exactly as written — including the comparisons
`p2.freq==500` and `p2.freq==250` in the first two branches. -/
def frequencyCollision (p1 p2 : myPacket) : Bool :=
  if |p1.freq - p2.freq| ≤ 120 ∧ (p1.bw = 500 ∨ p2.freq = 500) then true
  else if |p1.freq - p2.freq| ≤ 60 ∧ (p1.bw = 250 ∨ p2.freq = 250) then true
  else if |p1.freq - p2.freq| ≤ 30 then true
  else false

/-- The frequency-collision predicate as claim C1 (and the comment above
the source function) states it: collide when `|f1 − f2| ≤ 120` and either
packet's bandwidth is 500, else when `|f1 − f2| ≤ 60` and either packet's
bandwidth is 250, else when `|f1 − f2| ≤ 30`. -/
def frequencyCollisionSpec (p1 p2 : myPacket) : Bool :=
  if |p1.freq - p2.freq| ≤ 120 ∧ (p1.bw = 500 ∨ p2.bw = 500) then true
  else if |p1.freq - p2.freq| ≤ 60 ∧ (p1.bw = 250 ∨ p2.bw = 250) then true
  else if |p1.freq - p2.freq| ≤ 30 then true
  else false

/-- Embedding of `sfCollision(p1,p2)` (lines 524-530): collide iff the
spreading factors are equal. -/
def sfCollision (p1 p2 : myPacket) : Bool :=
  decide (p1.sf = p2.sf)

/-- Embedding of `powerCollision(p1,p2)` (lines 532-546), returning the
casualty set as a pair of flags `(p1 is a casualty, p2 is a casualty)`:
both when `|rssi1 − rssi2| < 6`, only `p1` when `rssi1 − rssi2 < 6`
(i.e. `p1` is at least 6 dB weaker), otherwise only `p2`. -/
def powerCollision (p1 p2 : myPacket) : Bool × Bool :=
  if |p1.rssi - p2.rssi| < 6 then (true, true)
  else if p1.rssi - p2.rssi < 6 then (true, false)
  else (false, true)

/-- Embedding of `timingCollision(p1,p2)` (lines 548-571): with
`Tpreamb = 2^sf1/bw1 · (8 − 5)`, `p1` collides (is "not late enough")
iff `now + Tpreamb < p2.addTime + p2.rectime`. -/
def timingCollision (now : ℚ) (p1 p2 : myPacket) : Bool :=
  decide (now + (2 : ℚ) ^ p1.sf / p1.bw * (8 - 5) < p2.addTime + p2.rectime)

/-! ## Claim C1 -/

/-- Failing input for claim C1: two sub-GHz packets 100 Hz apart, the
second one using BW 500. -/
def c1pktA : myPacket :=
  ⟨1, 12, 1, 125, 860000000, -100, 1, 104, 104, 0, 0, 0, 0⟩

/-- Second packet of the C1 failing input: bandwidth 500, frequency
offset 100 from `c1pktA`. -/
def c1pktB : myPacket :=
  ⟨2, 12, 1, 500, 860000100, -100, 1, 104, 104, 0, 0, 0, 0⟩

/-- C1: the claim says the frequency-collision predicate returns true
exactly when `|f1 − f2| ≤ 120` and either packet's bandwidth is 500 (and
so on down the branches).  The code instead tests `p2.freq == 500` where
`p2.bw == 500` was intended (its own header comment states the bandwidth
condition), so on the concrete pair `c1pktA`, `c1pktB` — frequency
difference 100, second bandwidth 500 — the claimed predicate is true but
the code returns false.  This theorem exhibits that divergence. -/
theorem C1_frequencyCollision_code_bug :
    frequencyCollision c1pktA c1pktB = false ∧
    frequencyCollisionSpec c1pktA c1pktB = true ∧
    |c1pktA.freq - c1pktB.freq| ≤ 120 ∧ (c1pktA.bw = 500 ∨ c1pktB.bw = 500) := by
  refine ⟨by decide, by decide, by decide, Or.inr (by norm_num [c1pktB])⟩

/-! ## Claim C5 -/

/-- C5: in sub-GHz mode, for every SF in [6,12], CR in [1,4], payload
length and BW in {125, 250, 500}, the source `airtime` equals
`Tpream + payloadSymbNB·Tsym` with `Tsym = 2^SF/BW`,
`Tpream = (8 + 4.25)·Tsym`, `H = 1` exactly when SF = 6, `DE = 1`
exactly when BW = 125 and SF ∈ {11,12}, and
`payloadSymbNB = 8 + max(0, ceil((8·pl − 4·SF + 28 + 16 − 20·H)/(4·(SF − 2·DE)))·(CR + 4))`. -/
theorem C5_airtime_subghz (sf cr pl : Nat) (bw : ℚ)
    (h1 : 6 ≤ sf) (h2 : sf ≤ 12) (h3 : 1 ≤ cr) (h4 : cr ≤ 4)
    (h5 : bw = 125 ∨ bw = 250 ∨ bw = 500) :
    airtime sf cr pl bw = airtimeSpec sf cr pl bw := by
  simp only [airtime, airtimeSpec, max_comm]

/-- Witness for C5 at SF12, CR1, 104-byte payload, BW125. -/
theorem C5_airtime_subghz_witness :
    (6 ≤ 12 ∧ 1 ≤ 1 ∧ ((125 : ℚ) = 125 ∨ (125 : ℚ) = 250 ∨ (125 : ℚ) = 500)) ∧
    airtime 12 1 104 125 = airtimeSpec 12 1 104 125 :=
  ⟨⟨by decide, by decide, Or.inl rfl⟩,
    C5_airtime_subghz 12 1 104 125 (by decide) (by decide) (by decide) (by decide) (Or.inl rfl)⟩

/-! ## Claim C7 -/

/-- C7: for every packet whose current `pl` equals its `data_len` and
which satisfies the rectime invariant, `setPacketType RTS` followed by
`setPacketType DATA` restores `pl` and `rectime` exactly; moreover after
every `setPacketType` call the invariant
`rectime = airtime(sf, cr, pl, bw)` holds. -/
theorem C7_setPacketType_roundtrip (p : myPacket)
    (hpl : p.pl = p.data_len)
    (hrt : p.rectime = airtime p.sf p.cr p.pl p.bw) :
    (setPacketType (setPacketType p rtsPacketType) dataPacketType).pl = p.pl ∧
    (setPacketType (setPacketType p rtsPacketType) dataPacketType).rectime = p.rectime ∧
    ∀ (q : myPacket) (t : Nat),
      (setPacketType q t).rectime = airtime q.sf q.cr (setPacketType q t).pl q.bw := by
  refine ⟨?_, ?_, ?_⟩
  · simp [setPacketType, rtsPacketType, dataPacketType, hpl]
  · simp [setPacketType, rtsPacketType, dataPacketType, hpl, hrt]
  · intro q t
    by_cases ht : t = rtsPacketType <;> simp [setPacketType, ht]

/-- Concrete packet for the C7 witness: `pl = data_len = 104` and
`rectime = airtime 12 1 104 125`, as after `myPacket.__init__`. -/
def c7pkt : myPacket :=
  ⟨1, 12, 1, 125, 860000000, -100, 1, 104, 104, airtime 12 1 104 125, 0, 0, 0⟩

/-- Witness for C7 on a concrete DATA packet satisfying the invariant. -/
theorem C7_setPacketType_roundtrip_witness :
    c7pkt.pl = c7pkt.data_len ∧
    c7pkt.rectime = airtime c7pkt.sf c7pkt.cr c7pkt.pl c7pkt.bw ∧
    ((setPacketType (setPacketType c7pkt rtsPacketType) dataPacketType).pl = c7pkt.pl ∧
     (setPacketType (setPacketType c7pkt rtsPacketType) dataPacketType).rectime = c7pkt.rectime ∧
     ∀ (q : myPacket) (t : Nat),
       (setPacketType q t).rectime = airtime q.sf q.cr (setPacketType q t).pl q.bw) :=
  ⟨rfl, rfl, C7_setPacketType_roundtrip c7pkt rfl rfl⟩

/-! ## Gateway receiver (source function `checkcollision`) -/

/-- An element of the gateway in-flight list `packetsAtBS`: the source
stores node objects; only the node id and the node's packet are read. -/
structure bsEntry where
  nodeid : Int
  packet : myPacket
deriving DecidableEq, Repr

/-- The fields of the source class `myNode` that `checkcollision` reads
and writes: the MAC state and the reception hints. -/
structure nodeHints where
  nodeid : Int
  ca_state : Nat
  receive_rts : Bool
  receive_rts_from : Int
  receive_rts_time : ℚ
  receive_data : Bool
  receive_data_from : Int
  receive_data_time : ℚ
  nav : Nat
deriving DecidableEq, Repr

/-- Number of in-flight packets with `processed == 1` (the loop at
source lines 371-373). -/
def countProcessed (bs : List bsEntry) : Nat :=
  (bs.filter (fun e => decide (e.packet.processed = 1))).length

/-- The demodulator-capacity check at source lines 371-378: count the
already-present processed packets; the arriving packet gets
`processed = 0` only when that count strictly exceeds `maxBSReceives`,
else `processed = 1`. -/
def stampProcessed (packet : myPacket) (bs : List bsEntry) : myPacket :=
  if countProcessed bs > maxBSReceives then { packet with processed := 0 }
  else { packet with processed := 1 }

/-- One iteration of the pairwise loop of `checkcollision` (source lines
407-434) on in-flight entry `other`: when the node ids differ and both
`frequencyCollision` and `sfCollision` hold, either apply the full
capture model (timing check then `powerCollision` casualties) or, in the
simplified model, mark both packets collided.  The state is (the new
packet so far, the updated entries so far, the `col` flag so far). -/
def collideStep (fullColl : Bool) (now : ℚ)
    (st : myPacket × List bsEntry × Nat) (other : bsEntry) :
    myPacket × List bsEntry × Nat :=
  let packet := st.1
  let acc := st.2.1
  let col := st.2.2
  if other.nodeid ≠ packet.nodeid ∧
      frequencyCollision packet other.packet = true ∧
      sfCollision packet other.packet = true then
    if fullColl then
      if timingCollision now packet other.packet = true then
        let c := powerCollision packet other.packet
        ((if c.1 then { packet with collided := 1 } else packet),
          acc ++ [if c.2 then { other with packet := { other.packet with collided := 1 } } else other],
          (if c.1 then 1 else col))
      else (packet, acc ++ [other], col)
    else ({ packet with collided := 1 },
      acc ++ [{ other with packet := { other.packet with collided := 1 } }], 1)
  else (packet, acc ++ [other], col)

/-- The whole pairwise loop of `checkcollision`: fold `collideStep` over
the in-flight list, starting from the arriving packet, an empty updated
list and `col = 0`. -/
def evalPairwise (fullColl : Bool) (now : ℚ) (packet : myPacket)
    (bs : List bsEntry) : myPacket × List bsEntry × Nat :=
  bs.foldl (collideStep fullColl now) (packet, [], 0)

/-- Inner body of the hint-cancellation loop (source lines 454-461) for
one in-flight entry `other` and one node: clear `receive_rts` when the
node recorded an RTS from `other` and `other`'s packet is collided, then
likewise clear `receive_data`. -/
def cancelNode1 (other : bsEntry) (n : nodeHints) : nodeHints :=
  let n1 :=
    if n.receive_rts = true ∧ n.receive_rts_from = other.nodeid ∧ other.packet.collided = 1
    then { n with receive_rts := false } else n
  if n1.receive_data = true ∧ n1.receive_data_from = other.nodeid ∧ other.packet.collided = 1
  then { n1 with receive_data := false } else n1

/-- The hint-cancellation double loop of `checkcollision` (source lines
451-461): for every in-flight entry, for every node, run `cancelNode1`. -/
def cancelHints (bs : List bsEntry) (ns : List nodeHints) : List nodeHints :=
  bs.foldl (fun acc other => acc.map (cancelNode1 other)) ns

/-- Cancellation as it acts on one node: fold `cancelNode1` over the
in-flight list. -/
def cancelNodeAll (bs : List bsEntry) (n : nodeHints) : nodeHints :=
  bs.foldl (fun m o => cancelNode1 o m) n

/-- The NAV-propagation loop of `checkcollision` (source lines 477-499):
every node other than the sender that is in a listening state and has
recorded no reception yet gets the hint for the arriving packet — for an
RTS set `receive_rts`, its sender and time, and `nav = packet.data_len`;
for DATA set `receive_data`, its sender and time, and
`nav = max_payload_size`. -/
def propagateHints (now : ℚ) (packet : myPacket) (ns : List nodeHints) : List nodeHints :=
  ns.map (fun n =>
    if n.nodeid ≠ packet.nodeid ∧
        (n.ca_state = start_phase1_listen ∨ n.ca_state = start_phase2_listen) ∧
        n.receive_rts = false ∧ n.receive_data = false then
      if packet.ptype = rtsPacketType then
        { n with receive_rts := true, receive_rts_from := packet.nodeid,
                 receive_rts_time := now, nav := packet.data_len }
      else if packet.ptype = dataPacketType then
        { n with receive_data := true, receive_data_from := packet.nodeid,
                 receive_data_time := now, nav := max_payload_size }
      else n
    else n)

/-- Embedding of the source function `checkcollision(packet)` (lines
368-501), called before the packet is appended to `packetsAtBS`:
stamp `processed`, run the pairwise loop, (in CA mode) run the
hint-cancellation loop, then — only when the new packet did not collide —
(in CA mode) run the NAV-propagation loop.  Returns the `col` return
value, the updated packet, the updated in-flight list, and the updated
node hints. -/
def checkcollision (CAf fullColl : Bool) (now : ℚ) (packet : myPacket)
    (bs : List bsEntry) (ns : List nodeHints) :
    Nat × myPacket × List bsEntry × List nodeHints :=
  let packet1 := stampProcessed packet bs
  let r := evalPairwise fullColl now packet1 bs
  let ns2 := if CAf then cancelHints r.2.1 ns else ns
  if r.2.2 ≠ 0 then (r.2.2, r.1, r.2.1, ns2)
  else (0, r.1, r.2.1, if CAf then propagateHints now r.1 ns2 else ns2)

/-! ## Structural lemmas about the gateway pipeline -/

/-- `collideStep` only ever touches the `collided` flag of the arriving
packet: its identity fields survive one iteration. -/
theorem collideStep_fst_fields (fullColl : Bool) (now : ℚ)
    (st : myPacket × List bsEntry × Nat) (o : bsEntry) :
    (collideStep fullColl now st o).1.nodeid = st.1.nodeid ∧
    (collideStep fullColl now st o).1.ptype = st.1.ptype ∧
    (collideStep fullColl now st o).1.data_len = st.1.data_len ∧
    (collideStep fullColl now st o).1.processed = st.1.processed := by
  unfold collideStep
  refine ⟨?_, ?_, ?_, ?_⟩ <;>
    simp [apply_ite Prod.fst, apply_ite myPacket.nodeid, apply_ite myPacket.ptype,
      apply_ite myPacket.data_len, apply_ite myPacket.processed]

/-- The pairwise loop only ever touches the `collided` flag of the
arriving packet. -/
theorem evalPairwise_fst_fields (fullColl : Bool) (now : ℚ) (bs : List bsEntry) :
    ∀ st : myPacket × List bsEntry × Nat,
    (List.foldl (collideStep fullColl now) st bs).1.nodeid = st.1.nodeid ∧
    (List.foldl (collideStep fullColl now) st bs).1.ptype = st.1.ptype ∧
    (List.foldl (collideStep fullColl now) st bs).1.data_len = st.1.data_len ∧
    (List.foldl (collideStep fullColl now) st bs).1.processed = st.1.processed := by
  induction bs with
  | nil => intro st; exact ⟨rfl, rfl, rfl, rfl⟩
  | cons o bs ih =>
    intro st
    have h1 := collideStep_fst_fields fullColl now st o
    have h2 := ih (collideStep fullColl now st o)
    simp only [List.foldl_cons]
    exact ⟨h2.1.trans h1.1, h2.2.1.trans h1.2.1, h2.2.2.1.trans h1.2.2.1,
      h2.2.2.2.trans h1.2.2.2⟩

/-- `stampProcessed` only touches the `processed` flag. -/
theorem stampProcessed_fields (packet : myPacket) (bs : List bsEntry) :
    (stampProcessed packet bs).nodeid = packet.nodeid ∧
    (stampProcessed packet bs).ptype = packet.ptype ∧
    (stampProcessed packet bs).data_len = packet.data_len := by
  unfold stampProcessed
  split_ifs <;> simp

/-- `cancelHints` acts on each node independently: it is the map of
`cancelNodeAll` over the node list. -/
theorem cancelHints_eq_map (bs : List bsEntry) :
    ∀ ns : List nodeHints, cancelHints bs ns = ns.map (cancelNodeAll bs) := by
  induction bs with
  | nil =>
    intro ns
    have h : cancelNodeAll ([] : List bsEntry) = fun n => n := rfl
    simp [cancelHints, h]
  | cons o bs ih =>
    intro ns
    have : cancelHints (o :: bs) ns = cancelHints bs (ns.map (cancelNode1 o)) := rfl
    rw [this, ih, List.map_map]
    rfl

/-- `cancelNode1` never changes a node's identity, state, hint sources
or hint times, and never raises a cleared hint flag. -/
theorem cancelNode1_fields (o : bsEntry) (n : nodeHints) :
    (cancelNode1 o n).nodeid = n.nodeid ∧
    (cancelNode1 o n).ca_state = n.ca_state ∧
    (cancelNode1 o n).receive_rts_from = n.receive_rts_from ∧
    (cancelNode1 o n).receive_data_from = n.receive_data_from ∧
    (cancelNode1 o n).receive_rts_time = n.receive_rts_time ∧
    (cancelNode1 o n).receive_data_time = n.receive_data_time ∧
    (cancelNode1 o n).nav = n.nav ∧
    (n.receive_rts = false → (cancelNode1 o n).receive_rts = false) ∧
    (n.receive_data = false → (cancelNode1 o n).receive_data = false) := by
  by_cases ha : n.receive_rts = true <;>
  by_cases hb : n.receive_rts_from = o.nodeid <;>
  by_cases hc : o.packet.collided = 1 <;>
  by_cases hd : n.receive_data = true <;>
  by_cases he : n.receive_data_from = o.nodeid <;>
    simp_all [cancelNode1]

/-- `cancelNode1` clears the RTS hint when it points at `o` and `o`'s
packet is collided. -/
theorem cancelNode1_clears_rts (o : bsEntry) (n : nodeHints)
    (hfrom : n.receive_rts_from = o.nodeid) (hcol : o.packet.collided = 1) :
    (cancelNode1 o n).receive_rts = false := by
  by_cases ha : n.receive_rts = true <;>
  by_cases hd : n.receive_data = true <;>
  by_cases he : n.receive_data_from = o.nodeid <;>
    simp_all [cancelNode1]

/-- `cancelNode1` clears the DATA hint when it points at `o` and `o`'s
packet is collided. -/
theorem cancelNode1_clears_data (o : bsEntry) (n : nodeHints)
    (hfrom : n.receive_data_from = o.nodeid) (hcol : o.packet.collided = 1) :
    (cancelNode1 o n).receive_data = false := by
  by_cases ha : n.receive_rts = true <;>
  by_cases hb : n.receive_rts_from = o.nodeid <;>
  by_cases hd : n.receive_data = true <;>
    simp_all [cancelNode1]

/-- `cancelNodeAll` never changes a node's identity, state, hint
sources, hint times or `nav`, and never raises a cleared hint flag. -/
theorem cancelNodeAll_fields (bs : List bsEntry) :
    ∀ n : nodeHints,
    (cancelNodeAll bs n).nodeid = n.nodeid ∧
    (cancelNodeAll bs n).ca_state = n.ca_state ∧
    (cancelNodeAll bs n).receive_rts_from = n.receive_rts_from ∧
    (cancelNodeAll bs n).receive_data_from = n.receive_data_from ∧
    (cancelNodeAll bs n).receive_rts_time = n.receive_rts_time ∧
    (cancelNodeAll bs n).receive_data_time = n.receive_data_time ∧
    (cancelNodeAll bs n).nav = n.nav ∧
    (n.receive_rts = false → (cancelNodeAll bs n).receive_rts = false) ∧
    (n.receive_data = false → (cancelNodeAll bs n).receive_data = false) := by
  induction bs with
  | nil => intro n; exact ⟨rfl, rfl, rfl, rfl, rfl, rfl, rfl, fun h => h, fun h => h⟩
  | cons o bs ih =>
    intro n
    have h1 := cancelNode1_fields o n
    have h2 := ih (cancelNode1 o n)
    refine ⟨h2.1.trans h1.1, h2.2.1.trans h1.2.1, h2.2.2.1.trans h1.2.2.1,
      h2.2.2.2.1.trans h1.2.2.2.1, h2.2.2.2.2.1.trans h1.2.2.2.2.1,
      h2.2.2.2.2.2.1.trans h1.2.2.2.2.2.1, h2.2.2.2.2.2.2.1.trans h1.2.2.2.2.2.2.1,
      ?_, ?_⟩
    · intro h; exact h2.2.2.2.2.2.2.2.1 (h1.2.2.2.2.2.2.2.1 h)
    · intro h; exact h2.2.2.2.2.2.2.2.2 (h1.2.2.2.2.2.2.2.2 h)

/-- Whenever some collided in-flight entry `o` is the recorded source of
a node's RTS hint, the cancellation loop leaves that hint cleared. -/
theorem cancelNodeAll_clears_rts (bs : List bsEntry) :
    ∀ (n : nodeHints) (o : bsEntry), o ∈ bs → o.packet.collided = 1 →
    n.receive_rts_from = o.nodeid → (cancelNodeAll bs n).receive_rts = false := by
  induction bs with
  | nil => intro n o ho; exact absurd ho (List.not_mem_nil o)
  | cons e bs ih =>
    intro n o ho hcol hfrom
    rcases List.mem_cons.mp ho with he | he
    · subst he
      have hclear := cancelNode1_clears_rts o n hfrom hcol
      exact (cancelNodeAll_fields bs (cancelNode1 o n)).2.2.2.2.2.2.2.1 hclear
    · have hfrom' : (cancelNode1 e n).receive_rts_from = o.nodeid :=
        (cancelNode1_fields e n).2.2.1.trans hfrom
      exact ih (cancelNode1 e n) o he hcol hfrom'

/-- Whenever some collided in-flight entry `o` is the recorded source of
a node's DATA hint, the cancellation loop leaves that hint cleared. -/
theorem cancelNodeAll_clears_data (bs : List bsEntry) :
    ∀ (n : nodeHints) (o : bsEntry), o ∈ bs → o.packet.collided = 1 →
    n.receive_data_from = o.nodeid → (cancelNodeAll bs n).receive_data = false := by
  induction bs with
  | nil => intro n o ho; exact absurd ho (List.not_mem_nil o)
  | cons e bs ih =>
    intro n o ho hcol hfrom
    rcases List.mem_cons.mp ho with he | he
    · subst he
      have hclear := cancelNode1_clears_data o n hfrom hcol
      exact (cancelNodeAll_fields bs (cancelNode1 o n)).2.2.2.2.2.2.2.2 hclear
    · have hfrom' : (cancelNode1 e n).receive_data_from = o.nodeid :=
        (cancelNode1_fields e n).2.2.2.1.trans hfrom
      exact ih (cancelNode1 e n) o he hcol hfrom'

/-- The arriving packet's node id survives the pairwise loop. -/
theorem evalPairwise_nodeid (fullColl : Bool) (now : ℚ) (p : myPacket) (bs : List bsEntry) :
    (evalPairwise fullColl now p bs).1.nodeid = p.nodeid :=
  (evalPairwise_fst_fields fullColl now bs (p, [], 0)).1

/-- The arriving packet's type survives the pairwise loop. -/
theorem evalPairwise_ptype (fullColl : Bool) (now : ℚ) (p : myPacket) (bs : List bsEntry) :
    (evalPairwise fullColl now p bs).1.ptype = p.ptype :=
  (evalPairwise_fst_fields fullColl now bs (p, [], 0)).2.1

/-- The arriving packet's `data_len` survives the pairwise loop. -/
theorem evalPairwise_data_len (fullColl : Bool) (now : ℚ) (p : myPacket) (bs : List bsEntry) :
    (evalPairwise fullColl now p bs).1.data_len = p.data_len :=
  (evalPairwise_fst_fields fullColl now bs (p, [], 0)).2.2.1

/-- The arriving packet's `processed` flag survives the pairwise loop. -/
theorem evalPairwise_processed (fullColl : Bool) (now : ℚ) (p : myPacket) (bs : List bsEntry) :
    (evalPairwise fullColl now p bs).1.processed = p.processed :=
  (evalPairwise_fst_fields fullColl now bs (p, [], 0)).2.2.2

/-- In CA mode the node-hints output of `checkcollision` is the
cancellation result when the new packet collided, and the propagation of
the new packet over the cancellation result otherwise. -/
theorem checkcollision_nodes_eq (fullColl : Bool) (now : ℚ) (packet : myPacket)
    (bs : List bsEntry) (ns : List nodeHints) :
    (checkcollision true fullColl now packet bs ns).2.2.2 =
      (if (evalPairwise fullColl now (stampProcessed packet bs) bs).2.2 ≠ 0 then
        cancelHints (evalPairwise fullColl now (stampProcessed packet bs) bs).2.1 ns
      else
        propagateHints now (evalPairwise fullColl now (stampProcessed packet bs) bs).1
          (cancelHints (evalPairwise fullColl now (stampProcessed packet bs) bs).2.1 ns)) := by
  by_cases h : (evalPairwise fullColl now (stampProcessed packet bs) bs).2.2 ≠ 0 <;>
    simp [checkcollision, h]

/-- When `checkcollision` reports no collision for the new packet, the
pairwise loop's `col` flag was zero. -/
theorem checkcollision_col_zero (fullColl : Bool) (now : ℚ) (packet : myPacket)
    (bs : List bsEntry) (ns : List nodeHints)
    (hcol : (checkcollision true fullColl now packet bs ns).1 = 0) :
    (evalPairwise fullColl now (stampProcessed packet bs) bs).2.2 = 0 := by
  by_cases h : (evalPairwise fullColl now (stampProcessed packet bs) bs).2.2 ≠ 0
  · exfalso
    have : (checkcollision true fullColl now packet bs ns).1 =
        (evalPairwise fullColl now (stampProcessed packet bs) bs).2.2 := by
      simp [checkcollision, h]
    rw [hcol] at this
    exact h this.symm
  · exact not_not.mp h

/-! ## Claim C2 -/

/-- C2: when a packet arrives at the gateway and the pairwise evaluation
does not mark it collided (`col = 0`), every node other than the sender
that is in a listening state and — at the point where the source tests
it, i.e. after the stale-hint cancellation pass — has both hint flags
clear, receives exactly the hint fields of the claim (`receive_rts`,
`receive_rts_from`, `receive_rts_time`, `nav = data_len` for an RTS;
`receive_data`, `receive_data_from`, `receive_data_time`,
`nav = max_payload_size` for DATA), and every other node is handed on
unchanged by the propagation. -/
theorem C2_nav_propagation (fullColl : Bool) (now : ℚ) (packet : myPacket)
    (bs : List bsEntry) (ns : List nodeHints) (i : Nat) (m : nodeHints)
    (hcol : (checkcollision true fullColl now packet bs ns).1 = 0)
    (hm : (cancelHints (evalPairwise fullColl now (stampProcessed packet bs) bs).2.1 ns)[i]? = some m) :
    ((m.nodeid ≠ packet.nodeid ∧
        (m.ca_state = start_phase1_listen ∨ m.ca_state = start_phase2_listen) ∧
        m.receive_rts = false ∧ m.receive_data = false) →
      (packet.ptype = rtsPacketType →
        (checkcollision true fullColl now packet bs ns).2.2.2[i]? =
          some { m with receive_rts := true, receive_rts_from := packet.nodeid,
                        receive_rts_time := now, nav := packet.data_len }) ∧
      (packet.ptype = dataPacketType →
        (checkcollision true fullColl now packet bs ns).2.2.2[i]? =
          some { m with receive_data := true, receive_data_from := packet.nodeid,
                        receive_data_time := now, nav := max_payload_size })) ∧
    (¬(m.nodeid ≠ packet.nodeid ∧
        (m.ca_state = start_phase1_listen ∨ m.ca_state = start_phase2_listen) ∧
        m.receive_rts = false ∧ m.receive_data = false) →
      (checkcollision true fullColl now packet bs ns).2.2.2[i]? = some m) := by
  have hz := checkcollision_col_zero fullColl now packet bs ns hcol
  have hnodes := checkcollision_nodes_eq fullColl now packet bs ns
  rw [if_neg (by simp [hz])] at hnodes
  have hs := stampProcessed_fields packet bs
  have key : (checkcollision true fullColl now packet bs ns).2.2.2[i]? =
      some (if (m.nodeid ≠ packet.nodeid ∧
          (m.ca_state = start_phase1_listen ∨ m.ca_state = start_phase2_listen) ∧
          m.receive_rts = false ∧ m.receive_data = false) then
        (if packet.ptype = rtsPacketType then
          { m with receive_rts := true, receive_rts_from := packet.nodeid,
                   receive_rts_time := now, nav := packet.data_len }
        else if packet.ptype = dataPacketType then
          { m with receive_data := true, receive_data_from := packet.nodeid,
                   receive_data_time := now, nav := max_payload_size }
        else m)
      else m) := by
    rw [hnodes]
    simp only [propagateHints, List.getElem?_map, hm, Option.map_some']
    rw [evalPairwise_nodeid, evalPairwise_ptype, evalPairwise_data_len, hs.1, hs.2.1, hs.2.2]
  refine ⟨fun hq => ⟨fun hrts => ?_, fun hdata => ?_⟩, fun hnq => ?_⟩
  · rw [key, if_pos hq, if_pos hrts]
  · have hne : ¬(packet.ptype = rtsPacketType) := by
      rw [hdata]; decide
    rw [key, if_pos hq, if_neg hne, if_pos hdata]
  · rw [key, if_neg hnq]

/-- RTS packet for the C2 witness. -/
def c2pkt : myPacket :=
  ⟨5, 12, 1, 125, 860000000, -100, 2, 5, 104, 0, 0, 0, 0⟩

/-- Listening node for the C2 witness: phase-1 listen, no hint yet. -/
def c2node : nodeHints :=
  ⟨7, 3, false, -1, 0, false, -1, 0, 0⟩

/-- Witness for C2: a single listening node, an empty in-flight list and
an arriving RTS from node 5. -/
theorem C2_nav_propagation_witness :
    (checkcollision true true 0 c2pkt [] [c2node]).1 = 0 ∧
    (cancelHints (evalPairwise true 0 (stampProcessed c2pkt []) []).2.1 [c2node])[0]? = some c2node ∧
    (((c2node.nodeid ≠ c2pkt.nodeid ∧
        (c2node.ca_state = start_phase1_listen ∨ c2node.ca_state = start_phase2_listen) ∧
        c2node.receive_rts = false ∧ c2node.receive_data = false) →
      (c2pkt.ptype = rtsPacketType →
        (checkcollision true true 0 c2pkt [] [c2node]).2.2.2[0]? =
          some { c2node with receive_rts := true, receive_rts_from := c2pkt.nodeid,
                             receive_rts_time := 0, nav := c2pkt.data_len }) ∧
      (c2pkt.ptype = dataPacketType →
        (checkcollision true true 0 c2pkt [] [c2node]).2.2.2[0]? =
          some { c2node with receive_data := true, receive_data_from := c2pkt.nodeid,
                             receive_data_time := 0, nav := max_payload_size })) ∧
    (¬(c2node.nodeid ≠ c2pkt.nodeid ∧
        (c2node.ca_state = start_phase1_listen ∨ c2node.ca_state = start_phase2_listen) ∧
        c2node.receive_rts = false ∧ c2node.receive_data = false) →
      (checkcollision true true 0 c2pkt [] [c2node]).2.2.2[0]? = some c2node)) :=
  ⟨by decide, by decide,
    C2_nav_propagation true 0 c2pkt [] [c2node] 0 c2node (by decide) (by decide)⟩

/-! ## Claim C3 -/

/-- C3: on every gateway arrival — whether or not the new packet itself
collided — any node whose recorded RTS (resp. DATA) hint source is an
in-flight entry whose packet is marked collided after the pairwise
evaluation has that hint cleared by the cancellation pass, and in the
final node state of `checkcollision` that stale hint is gone: the flag
is false unless it was re-established by the newly arriving packet
itself (in which case the recorded source is the new sender). -/
theorem C3_cancel_stale_hints (fullColl : Bool) (now : ℚ) (packet : myPacket)
    (bs : List bsEntry) (ns : List nodeHints) (i : Nat) (n : nodeHints) (o : bsEntry)
    (hn : ns[i]? = some n)
    (ho : o ∈ (evalPairwise fullColl now (stampProcessed packet bs) bs).2.1)
    (hoc : o.packet.collided = 1) :
    (n.receive_rts = true → n.receive_rts_from = o.nodeid →
      (cancelNodeAll (evalPairwise fullColl now (stampProcessed packet bs) bs).2.1 n).receive_rts = false ∧
      (∀ m, (checkcollision true fullColl now packet bs ns).2.2.2[i]? = some m →
        m.receive_rts = false ∨ m.receive_rts_from = packet.nodeid)) ∧
    (n.receive_data = true → n.receive_data_from = o.nodeid →
      (cancelNodeAll (evalPairwise fullColl now (stampProcessed packet bs) bs).2.1 n).receive_data = false ∧
      (∀ m, (checkcollision true fullColl now packet bs ns).2.2.2[i]? = some m →
        m.receive_data = false ∨ m.receive_data_from = packet.nodeid)) := by
  have hs := stampProcessed_fields packet bs
  have hmid : (cancelHints (evalPairwise fullColl now (stampProcessed packet bs) bs).2.1 ns)[i]? =
      some (cancelNodeAll (evalPairwise fullColl now (stampProcessed packet bs) bs).2.1 n) := by
    rw [cancelHints_eq_map]
    simp only [List.getElem?_map, hn, Option.map_some']
  have hnodes := checkcollision_nodes_eq fullColl now packet bs ns
  constructor
  · intro _ hfrom
    have hclr := cancelNodeAll_clears_rts
      (evalPairwise fullColl now (stampProcessed packet bs) bs).2.1 n o ho hoc hfrom
    refine ⟨hclr, fun m hm => ?_⟩
    rw [hnodes] at hm
    by_cases hcol : (evalPairwise fullColl now (stampProcessed packet bs) bs).2.2 ≠ 0
    · rw [if_pos hcol, hmid] at hm
      obtain rfl := Option.some.inj hm
      exact Or.inl hclr
    · rw [if_neg hcol] at hm
      simp only [propagateHints, List.getElem?_map, hmid, Option.map_some'] at hm
      rw [evalPairwise_nodeid, evalPairwise_ptype, evalPairwise_data_len, hs.1, hs.2.1, hs.2.2] at hm
      set c := cancelNodeAll (evalPairwise fullColl now (stampProcessed packet bs) bs).2.1 n with hc
      by_cases hq : (c.nodeid ≠ packet.nodeid ∧
          (c.ca_state = start_phase1_listen ∨ c.ca_state = start_phase2_listen) ∧
          c.receive_rts = false ∧ c.receive_data = false)
      · rw [if_pos hq] at hm
        by_cases hrts : packet.ptype = rtsPacketType
        · rw [if_pos hrts] at hm
          obtain rfl := Option.some.inj hm
          exact Or.inr rfl
        · rw [if_neg hrts] at hm
          by_cases hdata : packet.ptype = dataPacketType
          · rw [if_pos hdata] at hm
            obtain rfl := Option.some.inj hm
            exact Or.inl hclr
          · rw [if_neg hdata] at hm
            obtain rfl := Option.some.inj hm
            exact Or.inl hclr
      · rw [if_neg hq] at hm
        obtain rfl := Option.some.inj hm
        exact Or.inl hclr
  · intro _ hfrom
    have hclr := cancelNodeAll_clears_data
      (evalPairwise fullColl now (stampProcessed packet bs) bs).2.1 n o ho hoc hfrom
    refine ⟨hclr, fun m hm => ?_⟩
    rw [hnodes] at hm
    by_cases hcol : (evalPairwise fullColl now (stampProcessed packet bs) bs).2.2 ≠ 0
    · rw [if_pos hcol, hmid] at hm
      obtain rfl := Option.some.inj hm
      exact Or.inl hclr
    · rw [if_neg hcol] at hm
      simp only [propagateHints, List.getElem?_map, hmid, Option.map_some'] at hm
      rw [evalPairwise_nodeid, evalPairwise_ptype, evalPairwise_data_len, hs.1, hs.2.1, hs.2.2] at hm
      set c := cancelNodeAll (evalPairwise fullColl now (stampProcessed packet bs) bs).2.1 n with hc
      by_cases hq : (c.nodeid ≠ packet.nodeid ∧
          (c.ca_state = start_phase1_listen ∨ c.ca_state = start_phase2_listen) ∧
          c.receive_rts = false ∧ c.receive_data = false)
      · rw [if_pos hq] at hm
        by_cases hrts : packet.ptype = rtsPacketType
        · rw [if_pos hrts] at hm
          obtain rfl := Option.some.inj hm
          exact Or.inl hclr
        · rw [if_neg hrts] at hm
          by_cases hdata : packet.ptype = dataPacketType
          · rw [if_pos hdata] at hm
            obtain rfl := Option.some.inj hm
            exact Or.inr rfl
          · rw [if_neg hdata] at hm
            obtain rfl := Option.some.inj hm
            exact Or.inl hclr
      · rw [if_neg hq] at hm
        obtain rfl := Option.some.inj hm
        exact Or.inl hclr

/-- In-flight entry for the C3 witness: node 9's RTS, already marked
collided, spreading factor 7 (so no interaction with the arrival). -/
def c3entry : bsEntry :=
  ⟨9, ⟨9, 7, 1, 125, 860000000, -100, 2, 5, 104, 0, 0, 1, 0⟩⟩

/-- Node for the C3 witness: phase-1 listen, holding an RTS hint
recorded from node 9. -/
def c3node : nodeHints :=
  ⟨7, 3, true, 9, 0, false, -1, 0, 0⟩

/-- Witness for C3: arriving packet from node 5, one collided in-flight
entry from node 9, one node holding a stale RTS hint from node 9. -/
theorem C3_cancel_stale_hints_witness :
    ([c3node][0]? = some c3node) ∧
    (c3entry ∈ (evalPairwise true 0 (stampProcessed c2pkt [c3entry]) [c3entry]).2.1) ∧
    c3entry.packet.collided = 1 ∧
    ((c3node.receive_rts = true → c3node.receive_rts_from = c3entry.nodeid →
      (cancelNodeAll (evalPairwise true 0 (stampProcessed c2pkt [c3entry]) [c3entry]).2.1 c3node).receive_rts = false ∧
      (∀ m, (checkcollision true true 0 c2pkt [c3entry] [c3node]).2.2.2[0]? = some m →
        m.receive_rts = false ∨ m.receive_rts_from = c2pkt.nodeid)) ∧
    (c3node.receive_data = true → c3node.receive_data_from = c3entry.nodeid →
      (cancelNodeAll (evalPairwise true 0 (stampProcessed c2pkt [c3entry]) [c3entry]).2.1 c3node).receive_data = false ∧
      (∀ m, (checkcollision true true 0 c2pkt [c3entry] [c3node]).2.2.2[0]? = some m →
        m.receive_data = false ∨ m.receive_data_from = c2pkt.nodeid))) :=
  ⟨by decide, by decide, by decide,
    C3_cancel_stale_hints true 0 c2pkt [c3entry] [c3node] 0 c3node c3entry
      (by decide) (by decide) (by decide)⟩

/-! ## Gateway in-flight set dynamics (claim C9) -/

/-- One transmission start as the source performs it (e.g. lines
1430-1433): run `checkcollision` on the current in-flight list, then
append the sender's entry carrying the updated packet. -/
def gwArrive (CAf fullColl : Bool) (now : ℚ) (packet : myPacket)
    (ns : List nodeHints) (bs : List bsEntry) : List bsEntry :=
  (checkcollision CAf fullColl now packet bs ns).2.2.1 ++
    [⟨packet.nodeid, (checkcollision CAf fullColl now packet bs ns).2.1⟩]

/-- Transitions of the gateway in-flight list `packetsAtBS`: an arrival
(`checkcollision` followed by append) or the removal of an entry at
transmission end (`packetsAtBS.remove(node)`). -/
inductive GwStep : List bsEntry → List bsEntry → Prop
| arrive (CAf fullColl : Bool) (now : ℚ) (packet : myPacket)
    (ns : List nodeHints) (bs : List bsEntry) :
    GwStep bs (gwArrive CAf fullColl now packet ns bs)
| depart (bs1 bs2 : List bsEntry) (e : bsEntry) :
    GwStep (bs1 ++ e :: bs2) (bs1 ++ bs2)

/-- In-flight lists reachable from the initial empty `packetsAtBS`. -/
inductive GwReach : List bsEntry → Prop
| init : GwReach []
| step {bs bs' : List bsEntry} : GwReach bs → GwStep bs bs' → GwReach bs'

/-- `countProcessed` distributes over append. -/
theorem countProcessed_append (a b : List bsEntry) :
    countProcessed (a ++ b) = countProcessed a + countProcessed b := by
  simp [countProcessed, List.filter_append]

/-- One pairwise iteration appends exactly one entry, with the same
`processed` flag as the entry it examined. -/
theorem collideStep_count (fullColl : Bool) (now : ℚ)
    (st : myPacket × List bsEntry × Nat) (o : bsEntry) :
    countProcessed (collideStep fullColl now st o).2.1 =
      countProcessed st.2.1 + countProcessed [o] := by
  unfold collideStep
  by_cases h1 : o.nodeid ≠ st.1.nodeid ∧
      frequencyCollision st.1 o.packet = true ∧ sfCollision st.1 o.packet = true
  · rw [if_pos h1]
    by_cases h2 : fullColl = true
    · rw [if_pos h2]
      by_cases h3 : timingCollision now st.1 o.packet = true
      · rw [if_pos h3]
        by_cases h4 : (powerCollision st.1 o.packet).2 = true <;>
        by_cases h5 : o.packet.processed = 1 <;>
          simp_all [countProcessed_append, countProcessed, List.filter]
      · rw [if_neg h3]
        simp [countProcessed_append]
    · rw [if_neg h2]
      by_cases h5 : o.packet.processed = 1 <;>
        simp_all [countProcessed_append, countProcessed, List.filter]
  · rw [if_neg h1]
    simp [countProcessed_append]

/-- The pairwise loop preserves the number of processed in-flight
entries (it only ever marks `collided`). -/
theorem evalPairwise_count (fullColl : Bool) (now : ℚ) (bs : List bsEntry) :
    ∀ st : myPacket × List bsEntry × Nat,
    countProcessed (List.foldl (collideStep fullColl now) st bs).2.1 =
      countProcessed st.2.1 + countProcessed bs := by
  induction bs with
  | nil => intro st; simp [countProcessed]
  | cons o bs ih =>
    intro st
    have h1 := collideStep_count fullColl now st o
    have h2 := ih (collideStep fullColl now st o)
    have h3 : countProcessed (o :: bs) = countProcessed [o] + countProcessed bs := by
      by_cases h : o.packet.processed = 1 <;> simp [countProcessed, List.filter, h] <;> omega
    simp only [List.foldl_cons]
    omega

/-- The in-flight component of `checkcollision` is exactly the pairwise
loop's updated list. -/
theorem checkcollision_bs_eq (CAf fullColl : Bool) (now : ℚ) (packet : myPacket)
    (bs : List bsEntry) (ns : List nodeHints) :
    (checkcollision CAf fullColl now packet bs ns).2.2.1 =
      (evalPairwise fullColl now (stampProcessed packet bs) bs).2.1 := by
  by_cases h : (evalPairwise fullColl now (stampProcessed packet bs) bs).2.2 ≠ 0 <;>
    simp [checkcollision, h]

/-- The packet component of `checkcollision` is the pairwise loop's
updated packet. -/
theorem checkcollision_pkt_eq (CAf fullColl : Bool) (now : ℚ) (packet : myPacket)
    (bs : List bsEntry) (ns : List nodeHints) :
    (checkcollision CAf fullColl now packet bs ns).2.1 =
      (evalPairwise fullColl now (stampProcessed packet bs) bs).1 := by
  by_cases h : (evalPairwise fullColl now (stampProcessed packet bs) bs).2.2 ≠ 0 <;>
    simp [checkcollision, h]

/-- Counting processed packets across one arrival: the count grows by
one exactly when it did not already exceed `maxBSReceives`. -/
theorem gwArrive_count (CAf fullColl : Bool) (now : ℚ) (packet : myPacket)
    (ns : List nodeHints) (bs : List bsEntry) :
    countProcessed (gwArrive CAf fullColl now packet ns bs) =
      countProcessed bs + (if countProcessed bs > maxBSReceives then 0 else 1) := by
  unfold gwArrive
  rw [countProcessed_append, checkcollision_bs_eq, checkcollision_pkt_eq]
  have h1 : countProcessed (evalPairwise fullColl now (stampProcessed packet bs) bs).2.1 =
      countProcessed bs := by
    have := evalPairwise_count fullColl now bs (stampProcessed packet bs, [], 0)
    simpa [countProcessed] using this
  have h2 : (evalPairwise fullColl now (stampProcessed packet bs) bs).1.processed =
      (stampProcessed packet bs).processed :=
    evalPairwise_processed fullColl now (stampProcessed packet bs) bs
  rw [h1]
  by_cases hc : countProcessed bs > maxBSReceives
  · have hp : (stampProcessed packet bs).processed = 0 := by
      simp [stampProcessed, hc]
    have hcnt : countProcessed
        [⟨packet.nodeid, (evalPairwise fullColl now (stampProcessed packet bs) bs).1⟩] = 0 := by
      simp [countProcessed, List.filter, h2, hp]
    rw [hcnt, if_pos hc]
  · have hp : (stampProcessed packet bs).processed = 1 := by
      simp [stampProcessed, hc]
    have hcnt : countProcessed
        [⟨packet.nodeid, (evalPairwise fullColl now (stampProcessed packet bs) bs).1⟩] = 1 := by
      simp [countProcessed, List.filter, h2, hp]
    rw [hcnt, if_neg hc]

/-! ## Claim C9 -/

/-- Packet used to drive the gateway to nine simultaneous processed
in-flight packets. -/
def mkDemoPkt (i : Nat) : myPacket :=
  ⟨(i : Int), 12, 1, 125, 860000000, -100, 1, 104, 104, 0, 0, 0, 0⟩

/-- Iterated arrivals (ALOHA mode, simplified collisions) from distinct
nodes, starting from the empty in-flight list. -/
def gwDemo : Nat → List bsEntry
| 0 => []
| n + 1 => gwArrive false false 0 (mkDemoPkt n) [] (gwDemo n)

/-- Every state of the demonstration chain is reachable. -/
theorem gwDemo_reach : ∀ n, GwReach (gwDemo n) := by
  intro n
  induction n with
  | zero => exact GwReach.init
  | succ n ih =>
    exact GwReach.step ih (GwStep.arrive false false 0 (mkDemoPkt n) [] (gwDemo n))

/-- C9: at every instant the number of in-flight packets at the gateway
with `processed = 1` is at most `maxBSReceives + 1 = 9` — and the bound
9 is attained, so it is not 8: the arrival check counts only the
already-present processed packets and clears the new packet's
`processed` flag only when that count strictly exceeds
`maxBSReceives`. -/
theorem C9_processed_capacity :
    maxBSReceives + 1 = 9 ∧
    (∀ bs, GwReach bs → countProcessed bs ≤ maxBSReceives + 1) ∧
    (∃ bs, GwReach bs ∧ countProcessed bs = 9) ∧
    (∀ (packet : myPacket) (bs : List bsEntry),
      (countProcessed bs > maxBSReceives → (stampProcessed packet bs).processed = 0) ∧
      (countProcessed bs ≤ maxBSReceives → (stampProcessed packet bs).processed = 1)) := by
  refine ⟨rfl, ?_, ⟨gwDemo 9, gwDemo_reach 9, by decide⟩, ?_⟩
  · intro bs hreach
    induction hreach with
    | init => simp [countProcessed]
    | @step s s2 hr hstep ih =>
      cases hstep with
      | arrive CAf fullColl now packet ns =>
        rw [gwArrive_count]
        by_cases hc : countProcessed s > maxBSReceives <;> simp [hc] <;> omega
      | depart bs1 bs2 e =>
        rw [countProcessed_append] at ih ⊢
        have : countProcessed (e :: bs2) = countProcessed [e] + countProcessed bs2 := by
          by_cases h : e.packet.processed = 1 <;> simp [countProcessed, List.filter, h] <;> omega
        omega
  · intro packet bs
    constructor
    · intro h; simp [stampProcessed, h]
    · intro h
      have : ¬(countProcessed bs > maxBSReceives) := by omega
      simp [stampProcessed, this]

/-- Witness for C9's quantified parts at the initial state and a
concrete packet. -/
theorem C9_processed_capacity_witness :
    countProcessed [] ≤ maxBSReceives + 1 ∧
    (countProcessed [] > maxBSReceives → (stampProcessed (mkDemoPkt 0) []).processed = 0) ∧
    (countProcessed [] ≤ maxBSReceives → (stampProcessed (mkDemoPkt 0) []).processed = 1) :=
  ⟨C9_processed_capacity.2.1 [] GwReach.init,
    (C9_processed_capacity.2.2.2 (mkDemoPkt 0) []).1,
    (C9_processed_capacity.2.2.2 (mkDemoPkt 0) []).2⟩

/-! ## Node MAC state machine (source function `transmit`)

The event loop is embedded as a labelled step relation: one step is one
atomic code section between two `yield env.timeout(...)` suspensions (or
a state-variable transition executed without suspension).  Random draws
(`random.randint`, `random.uniform`) and the globally-shared channel
flags read by CCA enter as parameters of the step, so the relation
ranges over every schedule and every random outcome.  The gateway's
writes into a listening node's hint flags (`checkcollision`) appear as
the environment steps `hintRts` / `hintData` / `hintCancelRts` /
`hintCancelData`. -/

/-- The configuration globals of the source that the `transmit` loop
reads: `CA`, `CA1`, `check_busy`, `check_busy_rts`, `CCA_prob`,
`n_retry`, `n_retry_rts`, `Wbusy_BE` (the initial backoff exponent),
`Wbusy_maxBE` and `Wbusy_exp_backoff`. -/
structure macCfg where
  CA : Bool
  CA1 : Bool
  check_busy : Bool
  check_busy_rts : Bool
  CCA_prob : Nat
  n_retry : Int
  n_retry_rts : Int
  Wbusy_BE : Nat
  Wbusy_maxBE : Nat
  Wbusy_exp_backoff : Bool
deriving DecidableEq, Repr

/-- The per-node mutable state the claims quantify over: `ca_state`,
the packet type of the node's (single, reused) packet, the two retry
counters, the backoff exponent, the `cca` and `nav` markers and the
reception hints. -/
structure macState where
  ca_state : Nat
  ptype : Nat
  n_retry : Int
  n_retry_rts : Int
  Wbusy_BE : Nat
  cca : Bool
  nav : Nat
  receive_rts : Bool
  receive_data : Bool
deriving DecidableEq, Repr

/-- The CCA outcome computed by each `check_busy` block of the source
(e.g. lines 1035-1054): no check, or channel flags clear, reports free;
otherwise busy is detected iff the random draw in `[1,100]` is at most
`CCA_prob` and `CCA_prob != 0`. -/
def ccaDecision (check chanBusy : Bool) (draw prob : Nat) : Bool :=
  if check then
    (if chanBusy then decide (draw ≤ prob ∧ prob ≠ 0) else false)
  else false

/-- The exponential-backoff growth of `Wbusy_BE` (source lines
1065-1067): increment only when `Wbusy_exp_backoff` is set and the
exponent is still below `Wbusy_maxBE`. -/
def bumpBE (cfg : macCfg) (be : Nat) : Nat :=
  if cfg.Wbusy_exp_backoff ∧ be < cfg.Wbusy_maxBE then be + 1 else be

/-- Initial node state from `myNode.__init__` (source lines 675-722):
`ca_state = schedule_tx`, a DATA packet, `n_retry` from the global,
`n_retry_rts` from the global when positive else pinned to 1,
`Wbusy_BE` from the global, all flags clear. -/
def macInit (cfg : macCfg) : macState :=
  ⟨schedule_tx, dataPacketType, cfg.n_retry,
    if cfg.n_retry_rts > 0 then cfg.n_retry_rts else 1,
    cfg.Wbusy_BE, false, 0, false, false⟩

/-- Labels naming the atomic sections of the `transmit` loop (plus the
gateway-side hint writes). -/
inductive stepLabel where
| schedule
| wtAbort
| wtBusy
| wtFree
| caPhase1
| caPhase2
| p1Data
| p1Rts
| p1None
| p2Entry
| p2Busy
| p2Send
| p2lData
| p2lRts
| p2lNone
| p3Backoff
| p3Busy
| p3Free
| navEnd
| hintRts
| hintData
| hintCancelRts
| hintCancelData
| noCABusy
| noCAAbort
| noCASend
deriving DecidableEq, Repr

/-- The labelled step relation of the `transmit` loop.  CA-mode steps
carry the guard `cfg.CA = true`, ALOHA-mode steps `cfg.CA = false`.
`busyR`/`busyD` are the values of the shared `channel_busy_rts` /
`channel_busy_data` flags at the moment of the CCA, and `draw` the
`random.randint(1,100)` outcome. -/
inductive macStep (cfg : macCfg) : macState → stepLabel → macState → Prop
| schedule (s : macState) :
    cfg.CA = true → s.ca_state = schedule_tx →
    macStep cfg s .schedule { s with ca_state := want_transmit }
| wtAbort (s : macState) :
    cfg.CA = true → s.ca_state = want_transmit → s.ptype = dataPacketType →
    s.n_retry = 0 →
    macStep cfg s .wtAbort
      { s with n_retry := cfg.n_retry, Wbusy_BE := cfg.Wbusy_BE, cca := false, nav := 0 }
| wtBusy (s : macState) (busyR busyD : Bool) (draw : Nat) :
    cfg.CA = true → s.ca_state = want_transmit → s.ptype = dataPacketType →
    s.n_retry ≠ 0 →
    ccaDecision cfg.check_busy (busyR || busyD) draw cfg.CCA_prob = true →
    macStep cfg s .wtBusy
      { s with cca := true, nav := if s.cca then s.nav else 0,
               Wbusy_BE := bumpBE cfg s.Wbusy_BE, n_retry := s.n_retry - 1 }
| wtFree (s : macState) (busyR busyD : Bool) (draw : Nat) :
    cfg.CA = true → s.ca_state = want_transmit → s.ptype = dataPacketType →
    s.n_retry ≠ 0 →
    ccaDecision cfg.check_busy (busyR || busyD) draw cfg.CCA_prob = false →
    macStep cfg s .wtFree
      { s with cca := false, nav := if s.cca then s.nav else 0,
               ca_state := start_CA, ptype := rtsPacketType }
| caPhase1 (s : macState) :
    cfg.CA = true → s.ca_state = start_CA → s.ptype = rtsPacketType →
    macStep cfg s .caPhase1 { s with ca_state := start_phase1_listen }
| caPhase2 (s : macState) :
    cfg.CA = true → s.ca_state = start_CA → s.ptype = rtsPacketType →
    macStep cfg s .caPhase2 { s with ca_state := start_phase2_backoff }
| p1Data (s : macState) :
    cfg.CA = true → s.ca_state = start_phase1_listen →
    s.receive_rts = false → s.receive_data = true →
    macStep cfg s .p1Data { s with receive_data := false, ca_state := start_nav }
| p1Rts (s : macState) :
    cfg.CA = true → s.ca_state = start_phase1_listen → s.receive_rts = true →
    macStep cfg s .p1Rts { s with receive_rts := false, ca_state := start_nav }
| p1None (s : macState) :
    cfg.CA = true → s.ca_state = start_phase1_listen →
    s.receive_rts = false → s.receive_data = false →
    macStep cfg s .p1None { s with ca_state := start_phase2_backoff }
| p2Entry (s : macState) :
    cfg.CA = true → s.ca_state = start_phase2_backoff →
    macStep cfg s .p2Entry
      { s with ca_state := start_phase2_rts, Wbusy_BE := cfg.Wbusy_BE,
               n_retry_rts := if cfg.n_retry_rts > 0 then cfg.n_retry_rts else s.n_retry_rts,
               cca := false }
| p2Busy (s : macState) (busyR busyD : Bool) (draw : Nat) :
    cfg.CA = true → s.ca_state = start_phase2_rts → s.n_retry_rts ≠ 0 →
    ccaDecision cfg.check_busy_rts (busyR || busyD) draw cfg.CCA_prob = true →
    macStep cfg s .p2Busy
      { s with Wbusy_BE := bumpBE cfg s.Wbusy_BE,
               n_retry_rts := if cfg.n_retry_rts > 0 then s.n_retry_rts - 1 else s.n_retry_rts }
| p2Send (s : macState) :
    cfg.CA = true → s.ca_state = start_phase2_rts →
    macStep cfg s .p2Send
      { s with ca_state := if cfg.CA1 then start_phase3_backoff else start_phase2_listen }
| p2lData (s : macState) :
    cfg.CA = true → s.ca_state = start_phase2_listen →
    s.receive_rts = false → s.receive_data = true →
    macStep cfg s .p2lData { s with receive_data := false, ca_state := start_nav }
| p2lRts (s : macState) :
    cfg.CA = true → s.ca_state = start_phase2_listen → s.receive_rts = true →
    macStep cfg s .p2lRts { s with receive_rts := false, ca_state := start_nav }
| p2lNone (s : macState) :
    cfg.CA = true → s.ca_state = start_phase2_listen →
    s.receive_rts = false → s.receive_data = false →
    macStep cfg s .p2lNone { s with ca_state := start_phase3_backoff }
| p3Backoff (s : macState) :
    cfg.CA = true → s.ca_state = start_phase3_backoff →
    macStep cfg s .p3Backoff
      { s with ca_state := start_phase3_transmit, ptype := dataPacketType }
| p3Busy (s : macState) (busyR busyD : Bool) (draw : Nat) :
    cfg.CA = true → s.ca_state = start_phase3_transmit → s.ptype = dataPacketType →
    ccaDecision cfg.check_busy (busyR || busyD) draw cfg.CCA_prob = true →
    macStep cfg s .p3Busy
      { s with cca := true, n_retry := s.n_retry - 1, ca_state := want_transmit }
| p3Free (s : macState) (busyR busyD : Bool) (draw : Nat) :
    cfg.CA = true → s.ca_state = start_phase3_transmit → s.ptype = dataPacketType →
    ccaDecision cfg.check_busy (busyR || busyD) draw cfg.CCA_prob = false →
    macStep cfg s .p3Free
      { s with n_retry := cfg.n_retry, cca := false, nav := 0, ca_state := schedule_tx }
| navEnd (s : macState) :
    cfg.CA = true → s.ca_state = start_nav →
    macStep cfg s .navEnd
      { s with ca_state := want_transmit, ptype := dataPacketType,
               n_retry := s.n_retry - 1 }
| hintRts (s : macState) (d : Nat) :
    cfg.CA = true →
    (s.ca_state = start_phase1_listen ∨ s.ca_state = start_phase2_listen) →
    s.receive_rts = false → s.receive_data = false →
    macStep cfg s .hintRts { s with receive_rts := true, nav := d }
| hintData (s : macState) :
    cfg.CA = true →
    (s.ca_state = start_phase1_listen ∨ s.ca_state = start_phase2_listen) →
    s.receive_rts = false → s.receive_data = false →
    macStep cfg s .hintData { s with receive_data := true, nav := max_payload_size }
| hintCancelRts (s : macState) :
    cfg.CA = true → s.receive_rts = true →
    macStep cfg s .hintCancelRts { s with receive_rts := false }
| hintCancelData (s : macState) :
    cfg.CA = true → s.receive_data = true →
    macStep cfg s .hintCancelData { s with receive_data := false }
| noCABusy (s : macState) (busyD : Bool) (draw : Nat) :
    cfg.CA = false → s.n_retry ≠ 0 →
    ccaDecision cfg.check_busy busyD draw cfg.CCA_prob = true →
    macStep cfg s .noCABusy
      { s with Wbusy_BE := bumpBE cfg s.Wbusy_BE, n_retry := s.n_retry - 1 }
| noCAAbort (s : macState) :
    cfg.CA = false → s.n_retry = 0 →
    macStep cfg s .noCAAbort { s with n_retry := cfg.n_retry, Wbusy_BE := cfg.Wbusy_BE }
| noCASend (s : macState) :
    cfg.CA = false → s.n_retry ≠ 0 →
    macStep cfg s .noCASend { s with n_retry := cfg.n_retry, Wbusy_BE := cfg.Wbusy_BE }

/-- States of one node reachable from `myNode.__init__` under the
`transmit` loop. -/
inductive macReach (cfg : macCfg) : macState → Prop
| init : macReach cfg (macInit cfg)
| step {s s2 : macState} {l : stepLabel} :
    macReach cfg s → macStep cfg s l s2 → macReach cfg s2

/-- Inductive invariant behind claim C4: both retry counters within
their configured ranges, with the strengthening that any state inside
the CA procedure (`ca_state ≥ 2`) still has a retry in hand, and that in
ALOHA mode `ca_state` never leaves `schedule_tx`. -/
def macInv (cfg : macCfg) (s : macState) : Prop :=
  0 ≤ s.n_retry ∧ s.n_retry ≤ cfg.n_retry ∧
  (2 ≤ s.ca_state → 1 ≤ s.n_retry) ∧
  (0 < cfg.n_retry_rts → 0 ≤ s.n_retry_rts ∧ s.n_retry_rts ≤ cfg.n_retry_rts) ∧
  (cfg.n_retry_rts < 0 → s.n_retry_rts = 1) ∧
  (cfg.CA = false → s.ca_state = schedule_tx)

/-- The invariant holds initially. -/
theorem macInv_init (cfg : macCfg) (hN : 0 ≤ cfg.n_retry) : macInv cfg (macInit cfg) := by
  unfold macInv macInit schedule_tx
  dsimp only
  refine ⟨hN, le_refl _, by omega, ?_, ?_, fun _ => rfl⟩
  · intro h
    rw [if_pos h]
    omega
  · intro h
    rw [if_neg (by omega)]

/-- Every step of the `transmit` loop preserves the invariant. -/
theorem macInv_step (cfg : macCfg) (hN : 0 ≤ cfg.n_retry) {s s2 : macState} {l : stepLabel}
    (hst : macStep cfg s l s2) (hinv : macInv cfg s) : macInv cfg s2 := by
  obtain ⟨i1, i2, i3, i4, i5, i6⟩ := hinv
  cases hst <;>
    simp_all [macInv, schedule_tx, want_transmit, start_CA, start_phase1_listen,
      start_phase2_backoff, start_phase2_rts, start_phase2_listen, start_phase3_backoff,
      start_phase3_transmit, start_nav, dataPacketType, rtsPacketType] <;>
    omega

/-! ## Claim C4 -/

/-- C4: at every reachable instant, `n_retry` stays within
`[0, n_retry-max]`; when the configured RTS retry limit is positive,
`n_retry_rts` stays within `[0, n_retry_rts-max]`; when it is negative,
`n_retry_rts` is pinned to 1 and no step of the loop ever changes it. -/
theorem C4_retry_bounds (cfg : macCfg) (s : macState)
    (hN : 0 ≤ cfg.n_retry) (hreach : macReach cfg s) :
    (0 ≤ s.n_retry ∧ s.n_retry ≤ cfg.n_retry) ∧
    (0 < cfg.n_retry_rts → 0 ≤ s.n_retry_rts ∧ s.n_retry_rts ≤ cfg.n_retry_rts) ∧
    (cfg.n_retry_rts < 0 → s.n_retry_rts = 1) ∧
    (cfg.n_retry_rts < 0 → ∀ (t t2 : macState) (l : stepLabel),
      macStep cfg t l t2 → t2.n_retry_rts = t.n_retry_rts) := by
  have hinv : macInv cfg s := by
    induction hreach with
    | init => exact macInv_init cfg hN
    | step hr hst ih => exact macInv_step cfg hN hst ih
  refine ⟨⟨hinv.1, hinv.2.1⟩, hinv.2.2.2.1, hinv.2.2.2.2.1, ?_⟩
  intro hM t t2 l hst
  cases hst <;> simp_all <;> omega

/-- Configuration for the C4 witness: the source defaults (`CA` on,
`n_retry = 40`, `n_retry_rts = 20`, `Wbusy_BE = 3`, `Wbusy_maxBE = 6`,
`CCA_prob = 50`, exponential backoff on). -/
def c4cfg : macCfg := ⟨true, false, true, true, 50, 40, 20, 3, 6, true⟩

/-- Witness for C4 at the initial state under the default
configuration. -/
theorem C4_retry_bounds_witness :
    (0 ≤ (macInit c4cfg).n_retry ∧ (macInit c4cfg).n_retry ≤ c4cfg.n_retry) ∧
    (0 < c4cfg.n_retry_rts →
      0 ≤ (macInit c4cfg).n_retry_rts ∧ (macInit c4cfg).n_retry_rts ≤ c4cfg.n_retry_rts) ∧
    (c4cfg.n_retry_rts < 0 → (macInit c4cfg).n_retry_rts = 1) ∧
    (c4cfg.n_retry_rts < 0 → ∀ (t t2 : macState) (l : stepLabel),
      macStep c4cfg t l t2 → t2.n_retry_rts = t.n_retry_rts) :=
  C4_retry_bounds c4cfg (macInit c4cfg) (by decide) macReach.init

/-! ## Claim C6 -/

/-- Labels whose code site ends the current transmission attempt: the
`want_transmit` abort, the successful DATA transmission, and in ALOHA
mode the abort and the send (both of which reset the attempt state). -/
def endsAttempt : stepLabel → Bool
| .wtAbort => true
| .p3Free => true
| .noCAAbort => true
| .noCASend => true
| _ => false

/-- Step chains that stay inside one transmission attempt: reflexive
closure of steps whose label does not end the attempt. -/
inductive attemptSteps (cfg : macCfg) : macState → macState → Prop
| refl (s : macState) : attemptSteps cfg s s
| step {s1 s2 s3 : macState} {l : stepLabel} :
    attemptSteps cfg s1 s2 → macStep cfg s2 l s3 → endsAttempt l = false →
    attemptSteps cfg s1 s3

/-- Configuration for the C6 counterexample: the source defaults. -/
def c6cfg : macCfg := ⟨true, false, true, true, 50, 40, 20, 3, 6, true⟩

/-- Node state at the start of an attempt (`want_transmit`, fresh
counters). -/
def c6s1 : macState := ⟨1, 1, 40, 20, 3, false, 0, false, false⟩

/-- Node state after one CCA-busy retry: `Wbusy_BE` grew to 4. -/
def c6s2 : macState := ⟨1, 1, 39, 20, 4, true, 0, false, false⟩

/-- Node state after the CCA found the channel free (entering
`start_CA` with an RTS packet). -/
def c6s3 : macState := ⟨2, 2, 39, 20, 4, false, 0, false, false⟩

/-- Node state in `start_phase2_backoff`. -/
def c6s4 : macState := ⟨4, 2, 39, 20, 4, false, 0, false, false⟩

/-- Node state just after entering the phase-2 RTS procedure: the entry
code reset `Wbusy_BE` back to its initial value 3. -/
def c6s5 : macState := ⟨5, 2, 39, 20, 3, false, 0, false, false⟩

/-- Counterexample to C6's monotonicity part: with exponential backoff
enabled, a reachable attempt raises `Wbusy_BE` from 3 to 4 at a
`want_transmit` CCA-busy retry and then, still within the same attempt
(no transmission, no abort), the entry to the phase-2 RTS procedure
(source line 1176) resets it to 3 — a strict decrease. -/
theorem C6_wbusy_monotonic_counterexample :
    c6cfg.Wbusy_exp_backoff = true ∧
    macReach c6cfg c6s1 ∧ c6s1.ca_state = want_transmit ∧
    attemptSteps c6cfg c6s1 c6s2 ∧ attemptSteps c6cfg c6s2 c6s5 ∧
    c6s5.Wbusy_BE < c6s2.Wbusy_BE := by
  have h01 : macStep c6cfg (macInit c6cfg) .schedule c6s1 :=
    macStep.schedule (macInit c6cfg) (rfl : c6cfg.CA = true) rfl
  have h12 : macStep c6cfg c6s1 .wtBusy c6s2 :=
    macStep.wtBusy c6s1 true false 1 rfl rfl rfl (by decide) (by decide)
  have h23 : macStep c6cfg c6s2 .wtFree c6s3 :=
    macStep.wtFree c6s2 true false 100 rfl rfl rfl (by decide) (by decide)
  have h34 : macStep c6cfg c6s3 .caPhase2 c6s4 :=
    macStep.caPhase2 c6s3 (rfl : c6cfg.CA = true) rfl rfl
  have h45 : macStep c6cfg c6s4 .p2Entry c6s5 :=
    macStep.p2Entry c6s4 (rfl : c6cfg.CA = true) rfl
  refine ⟨rfl, macReach.step macReach.init h01, rfl, ?_, ?_, by decide⟩
  · exact attemptSteps.step (attemptSteps.refl c6s1) h12 rfl
  · exact attemptSteps.step
      (attemptSteps.step (attemptSteps.step (attemptSteps.refl c6s2) h23 rfl) h34 rfl)
      h45 rfl

/-- C6 as amended: `Wbusy_BE` stays within
`[configured initial, Wbusy_maxBE]` at every reachable instant, and with
exponential backoff enabled every step other than the resets — the
`want_transmit` abort, the entry to the phase-2 RTS procedure and the
ALOHA-mode abort/send resets — leaves it non-decreasing; because the
phase-2 entry reset happens in the middle of an attempt, monotonicity
over a whole attempt fails (see the counterexample). -/
theorem C6_wbusy_bounds (cfg : macCfg) (s : macState)
    (hbe : cfg.Wbusy_BE ≤ cfg.Wbusy_maxBE) (hreach : macReach cfg s) :
    (cfg.Wbusy_BE ≤ s.Wbusy_BE ∧ s.Wbusy_BE ≤ cfg.Wbusy_maxBE) ∧
    (∀ (t t2 : macState) (l : stepLabel), macStep cfg t l t2 →
      l ≠ .wtAbort → l ≠ .p2Entry → l ≠ .noCAAbort → l ≠ .noCASend →
      t.Wbusy_BE ≤ t2.Wbusy_BE) := by
  constructor
  · induction hreach with
    | init => exact ⟨le_refl _, hbe⟩
    | step hr hst ih =>
      cases hst <;> simp_all [bumpBE] <;> split_ifs <;> omega
  · intro t t2 l hst hl1 hl2 hl3 hl4
    cases hst <;> simp_all [bumpBE] <;> split_ifs <;> omega

/-- Witness for the amended C6 at the initial state under the default
configuration. -/
theorem C6_wbusy_bounds_witness :
    (c6cfg.Wbusy_BE ≤ (macInit c6cfg).Wbusy_BE ∧
      (macInit c6cfg).Wbusy_BE ≤ c6cfg.Wbusy_maxBE) ∧
    (∀ (t t2 : macState) (l : stepLabel), macStep c6cfg t l t2 →
      l ≠ .wtAbort → l ≠ .p2Entry → l ≠ .noCAAbort → l ≠ .noCASend →
      t.Wbusy_BE ≤ t2.Wbusy_BE) :=
  C6_wbusy_bounds c6cfg (macInit c6cfg) (by decide) macReach.init

/-! ## Claim C8 -/

/-- C8: with `CCA_prob = 0`, every CCA reports the channel free
regardless of the channel flags (the source guards the busy outcome with
`CCA_prob != 0`), so no busy-branch step (`want_transmit` retry, phase-2
RTS retry, phase-3 retry, ALOHA retry) is ever possible, and the step
relation coincides with the one for `check_busy = false` and
`check_busy_rts = false`. -/
theorem C8_cca_prob_zero (cfg : macCfg) (hp : cfg.CCA_prob = 0) :
    (∀ (check chan : Bool) (draw : Nat),
      ccaDecision check chan draw cfg.CCA_prob = false) ∧
    (∀ (s s2 : macState) (l : stepLabel), macStep cfg s l s2 →
      l ≠ .wtBusy ∧ l ≠ .p2Busy ∧ l ≠ .p3Busy ∧ l ≠ .noCABusy) ∧
    (∀ (s s2 : macState) (l : stepLabel),
      macStep cfg s l s2 ↔
        macStep { cfg with check_busy := false, check_busy_rts := false } s l s2) := by
  have hdec : ∀ (check chan : Bool) (draw : Nat),
      ccaDecision check chan draw cfg.CCA_prob = false := by
    intro check chan draw
    rw [hp]
    cases check <;> cases chan <;> simp [ccaDecision]
  refine ⟨hdec, ?_, ?_⟩
  · intro s s2 l hst
    cases hst
    case wtBusy bR bD dr hCA hs hpt hn hc => rw [hdec] at hc; simp at hc
    case p2Busy bR bD dr hCA hs hn hc => rw [hdec] at hc; simp at hc
    case p3Busy bR bD dr hCA hs hpt hc => rw [hdec] at hc; simp at hc
    case noCABusy bD dr hCA hn hc => rw [hdec] at hc; simp at hc
    all_goals exact (by decide)
  · intro s s2 l
    constructor
    · intro hst
      cases hst
      case wtBusy bR bD dr hCA hs hpt hn hc => rw [hdec] at hc; simp at hc
      case p2Busy bR bD dr hCA hs hn hc => rw [hdec] at hc; simp at hc
      case p3Busy bR bD dr hCA hs hpt hc => rw [hdec] at hc; simp at hc
      case noCABusy bD dr hCA hn hc => rw [hdec] at hc; simp at hc
      case wtFree bR bD dr hCA hs hpt hn hc =>
        exact macStep.wtFree _ bR bD dr hCA hs hpt hn rfl
      case p3Free bR bD dr hCA hs hpt hc =>
        exact macStep.p3Free _ bR bD dr hCA hs hpt rfl
      all_goals (constructor <;> assumption)
    · intro hst
      cases hst
      case wtBusy bR bD dr hCA hs hpt hn hc => simp [ccaDecision] at hc
      case p2Busy bR bD dr hCA hs hn hc => simp [ccaDecision] at hc
      case p3Busy bR bD dr hCA hs hpt hc => simp [ccaDecision] at hc
      case noCABusy bD dr hCA hn hc => simp [ccaDecision] at hc
      case wtFree bR bD dr hCA hs hpt hn hc =>
        exact macStep.wtFree _ bR bD dr hCA hs hpt hn (hdec _ _ _)
      case p3Free bR bD dr hCA hs hpt hc =>
        exact macStep.p3Free _ bR bD dr hCA hs hpt (hdec _ _ _)
      all_goals (constructor <;> assumption)

/-- Configuration for the C8 witness: source defaults with
`CCA_prob = 0`. -/
def c8cfg : macCfg := ⟨true, false, true, true, 0, 40, 20, 3, 6, true⟩

/-- Witness for C8 under a concrete configuration with `CCA_prob = 0`. -/
theorem C8_cca_prob_zero_witness :
    (∀ (check chan : Bool) (draw : Nat),
      ccaDecision check chan draw c8cfg.CCA_prob = false) ∧
    (∀ (s s2 : macState) (l : stepLabel), macStep c8cfg s l s2 →
      l ≠ .wtBusy ∧ l ≠ .p2Busy ∧ l ≠ .p3Busy ∧ l ≠ .noCABusy) ∧
    (∀ (s s2 : macState) (l : stepLabel),
      macStep c8cfg s l s2 ↔
        macStep { c8cfg with check_busy := false, check_busy_rts := false } s l s2) :=
  C8_cca_prob_zero c8cfg rfl

/-! ## Claim C10 -/

/-- Value of a channel-busy flag after replaying, in chronological
order, the assignments of a list of timestamped writes up to time `t`:
each transmission contributes `flag := true` at its start and the
unconditional `flag := false` when its airtime wait elapses (source
lines 1435-1437 for DATA, 1252-1254 for RTS); the flag starts false and
each write overwrites the previous value. -/
def channelFlagAt (evs : List (ℚ × Bool)) (t : ℚ) : Bool :=
  (evs.filter (fun e => decide (e.1 ≤ t))).foldl (fun _ e => e.2) false

/-- The chronologically-ordered writes to one channel flag produced by
two overlapping transmissions, the first starting at `sa` with airtime
`da`, the second at `sb` with airtime `db`, when
`sa < sb < sa + da < sb + db`. -/
def txFlagTimeline (sa da sb db : ℚ) : List (ℚ × Bool) :=
  [(sa, true), (sb, true), (sa + da, false), (sb + db, false)]

/-- C10: the channel flag is a single boolean — set at a transmission's
start and unconditionally cleared when that transmission's wait elapses.
For any two overlapping transmissions and any CCA instant `t` after the
earlier one ends but before the later one ends, the flag reads false
even though the later transmission is still on the air, so every CCA at
`t` reports the channel free. -/
theorem C10_channel_busy_overlap (sa da sb db t : ℚ)
    (h1 : sa < sb) (h2 : sb < sa + da) (h3 : sa + da < sb + db)
    (h4 : sa + da ≤ t) (h5 : t < sb + db) :
    channelFlagAt (txFlagTimeline sa da sb db) t = false ∧
    (sb ≤ t ∧ t < sb + db) ∧
    (∀ (check : Bool) (draw prob : Nat),
      ccaDecision check (channelFlagAt (txFlagTimeline sa da sb db) t) draw prob = false) := by
  have hb : sb ≤ t := le_of_lt (lt_of_lt_of_le h2 h4)
  have ha : sa ≤ t := le_of_lt (lt_of_lt_of_le h1 hb)
  have hne : ¬(sb + db ≤ t) := not_le.mpr h5
  have hflag : channelFlagAt (txFlagTimeline sa da sb db) t = false := by
    simp [channelFlagAt, txFlagTimeline, List.filter, ha, hb, h4, hne]
  refine ⟨hflag, ⟨hb, h5⟩, ?_⟩
  intro check draw prob
  rw [hflag]
  cases check <;> simp [ccaDecision]

/-- Witness for C10 with the first transmission on `[0,10]`, the second
on `[5,15]`, and a CCA at `t = 11`. -/
theorem C10_channel_busy_overlap_witness :
    channelFlagAt (txFlagTimeline 0 10 5 10) 11 = false ∧
    ((5 : ℚ) ≤ 11 ∧ (11 : ℚ) < 5 + 10) ∧
    (∀ (check : Bool) (draw prob : Nat),
      ccaDecision check (channelFlagAt (txFlagTimeline 0 10 5 10) 11) draw prob = false) :=
  C10_channel_busy_overlap 0 10 5 10 11
    (by norm_num) (by norm_num) (by norm_num) (by norm_num) (by norm_num)
